import Mathlib

/-!
Shallow embedding of `pygeoapi/provider/postgis_edr.py`
(`PostGISRasterProvider`): the temporal expression parser
`handle_datetime`, the geometry interpreter `_process_wkt_parameter`,
the coverage assemblers `gen_area_covjson` / `gen_point_covjson`,
the parameter-metadata lookup `_get_parameter_metadata`, and the
`query` entry point with its two SQL templates.  Python strings are
modelled as `List Char`; the database and the rasterio decoder are
oracles supplied through an environment record; observable effects
(executed SQL statements) are returned alongside the result.
-/

namespace PostgisEdr

/-- Python strings of the embedded program are modelled as lists of
characters, so that concatenation and splitting admit inductive proofs. -/
abbrev Str := List Char

/-- Coerce a Lean string literal into the character-list representation. -/
def str (s : String) : Str := s.toList

/-- Run of `n` space characters.  Python keeps the leading whitespace of a
continuation line (backslash-newline inside a string literal), so the
multi-line f-strings of the source contain these runs. -/
def sp (n : Nat) : Str := List.replicate n ' '

/-- Embedding of `PostGISRasterProvider.handle_datetime`.  The source
returns an SQL fragment string built by f-string interpolation; the
`START/END` branch reproduces the source text exactly, including the
doubled apostrophe after `START` and the 25 spaces that the backslash
line continuation keeps.  When `split('/')` does not yield exactly two
parts the source raises `ValueError` from tuple unpacking; that case is
`none` here. -/
def handle_datetime (requested_datetimes : Str) (time_col : Str) : Option Str :=
  if ¬ ('/' ∈ requested_datetimes) then
    some (str "\"" ++ time_col ++ str "\" = '" ++ requested_datetimes ++ str "'")
  else
    match List.splitOn '/' requested_datetimes with
    | [start, stop] =>
      if (str "..") <:+: start then
        some (str "\"" ++ time_col ++ str "\" >= '" ++ stop ++ str "'")
      else if (str "..") <:+: stop then
        some (str "\"" ++ time_col ++ str "\" <= '" ++ start ++ str "'")
      else
        some (str "\"" ++ time_col ++ str "\" <= '" ++ start ++ str "'' and "
              ++ sp 25 ++ str "\"" ++ time_col ++ str "\" >= '" ++ stop ++ str "'")
    | _ => none

/-- Helper: splitting a list that does not contain the separator yields the
singleton list. -/
theorem splitOn_of_not_mem (a : Str) (ha : '/' ∉ a) : List.splitOn '/' a = [a] := by
  simp only [List.splitOn]
  refine List.splitOnP_eq_single _ _ ?_
  intro x hx
  simp only [beq_iff_eq]
  exact fun h => ha (h ▸ hx)

/-- Helper: splitting `a ++ '/' :: b` where neither side contains the
separator yields exactly the two parts, as Python `"a/b".split('/')` does. -/
theorem splitOn_pair (a b : Str) (ha : '/' ∉ a) (hb : '/' ∉ b) :
    List.splitOn '/' (a ++ '/' :: b) = [a, b] := by
  simp only [List.splitOn]
  rw [List.splitOnP_first _ _ ?h '/' (by simp)]
  · rw [List.splitOnP_eq_single _ _ ?hb]
    intro x hx
    simp only [beq_iff_eq]
    exact fun h => hb (h ▸ hx)
  · intro x hx
    simp only [beq_iff_eq]
    exact fun h => ha (h ▸ hx)

/-- Subset of `self._coverage_properties` that the embedded functions read
(the resolver hard-codes these values; the numeric bbox entries are not
consulted by the functions embedded here). -/
structure CoverageProps where
  bbox_crs : Str
  crs_type : Str
  x_axis_label : Str
  y_axis_label : Str
deriving DecidableEq

/-- Affine bounds of a geometry or raster: `(minx, miny, maxx, maxy)`,
the order of `shapely` `bounds` and of `rasterio` `dataset.bounds`. -/
structure Bounds where
  minx : ℚ
  miny : ℚ
  maxx : ℚ
  maxy : ℚ
deriving DecidableEq

/-- Shapely geometry object as the source consults it: `wkt.type` is the
geometry kind string, `x`/`y` the point coordinates, `xy` the coordinate
arrays of a line, `bounds` the bounding extent, and `wktText` the WKT text
that `str(geom)` yields when the object is interpolated into an f-string. -/
structure Geom where
  type : Str
  x : ℚ
  y : ℚ
  xy : List ℚ × List ℚ
  bounds : Bounds
  wktText : Str
deriving DecidableEq

/-- Value bound to an axis label by the geometry interpreter: a scalar
coordinate, a coordinate array, or a Python `slice(lo, hi)` range. -/
inductive AxisBinding
  | scalar (v : ℚ)
  | coords (vs : List ℚ)
  | range (lo hi : ℚ)
deriving DecidableEq

/-- Embedding of `PostGISRasterProvider._process_wkt_parameter`.  A missing
geometry yields the empty dict; `Point`, `LineString` and `Polygon` bind the
configured axis labels; every other geometry kind falls through all branches
and the (empty) dict is returned — the source has no `else` arm and raises
nothing. -/
def process_wkt_parameter (props : CoverageProps) (wkt : Option Geom) :
    List (Str × AxisBinding) :=
  match wkt with
  | none => []
  | some w =>
    if w.type = str "Point" then
      [(props.x_axis_label, .scalar w.x), (props.y_axis_label, .scalar w.y)]
    else if w.type = str "LineString" then
      [(props.x_axis_label, .coords w.xy.1), (props.y_axis_label, .coords w.xy.2)]
    else if w.type = str "Polygon" then
      [(props.x_axis_label, .range w.bounds.minx w.bounds.maxx),
       (props.y_axis_label, .range w.bounds.miny w.bounds.maxy)]
    else []

/-- JSON scalar appearing in axis `values` lists (numbers or strings). -/
inductive JVal
  | num (q : ℚ)
  | strv (s : Str)
deriving DecidableEq

/-- One axis of a CoverageJSON domain: either a regular `start/stop/num`
grid spec or an explicit `values` list. -/
inductive Axis
  | regular (start stop : ℚ) (num : Nat)
  | vals (values : List JVal)
deriving DecidableEq

/-- Referencing system entry (`system` object): `type`, optional `id`,
optional `calendar`. -/
structure RefSystem where
  type : Str
  id : Option Str
  calendar : Option Str
deriving DecidableEq

/-- One `referencing` entry of a CoverageJSON domain. -/
structure Referencing where
  coordinates : List Str
  system : RefSystem
deriving DecidableEq

/-- CoverageJSON `Parameter` object as the source builds it:
`description`, `unit.symbol` and `observedProperty` id / English label. -/
structure Parameter where
  description : Option Str
  unit_symbol : Option Str
  observed_property_id : Option Str
  observed_property_label_en : Option Str
deriving DecidableEq

/-- CoverageJSON `NdArray` range object (`type` is always `'NdArray'`). -/
structure NdArray where
  dataType : Str
  axisNames : List Str
  shape : List Nat
  values : List ℚ
deriving DecidableEq

/-- CoverageJSON domain (`type` is always `'Domain'`). -/
structure Domain where
  domainType : Str
  axes : List (Str × Axis)
  referencing : List Referencing
deriving DecidableEq

/-- CoverageJSON coverage document (`type` is always `'Coverage'`).
`parameters` and `ranges` are Python dicts keyed by `pm['id']`, which is
`None` for drivers the metadata lookup does not know — hence the
`Option Str` keys. -/
structure CovJson where
  domain : Domain
  parameters : List (Option Str × Parameter)
  ranges : List (Option Str × NdArray)
deriving DecidableEq

/-- Python dict insertion `d[k] = v` on an association list: an existing
key is overwritten in place, a new key is appended. -/
def dict_set {α β : Type} [DecidableEq α] (d : List (α × β)) (k : α) (v : β) :
    List (α × β) :=
  if k ∈ d.map Prod.fst then
    d.map (fun p => if p.1 = k then (k, v) else p)
  else
    d ++ [(k, v)]

/-- GDAL band tag dictionary (`dataset.tags(bs)`); lookup of an absent key
is modelled as `none`. -/
structure BandTags where
  tag : Str → Option Str

/-- Result record of `_get_parameter_metadata`. -/
structure ParamMeta where
  id : Option Str
  description : Option Str
  unit_label : Option Str
  unit_symbol : Option Str
  observed_property_id : Option Str
  observed_property_name : Option Str

/-- Embedding of the static helper
`PostGISRasterProvider._get_parameter_metadata`: all-`None` record,
then two independent `if` blocks for the `'GRIB'` and `'GTiff'` drivers
(any other driver keeps the `None` fields). -/
def get_parameter_metadata (driver : Str) (band : BandTags) : ParamMeta :=
  let parameter : ParamMeta := ⟨none, none, none, none, none, none⟩
  let parameter :=
    if driver = str "GRIB" then
      { id := band.tag (str "GRIB_ELEMENT"),
        description := band.tag (str "GRIB_COMMENT"),
        unit_label := band.tag (str "GRIB_UNIT"),
        unit_symbol := band.tag (str "GRIB_UNIT"),
        observed_property_id := band.tag (str "GRIB_SHORT_NAME"),
        observed_property_name := band.tag (str "GRIB_COMMENT") }
    else parameter
  let parameter :=
    if driver = str "GTiff" then
      { id := some (str "pROTI"),
        description := some (str "hardcoded description"),
        unit_label := some (str "unit"),
        unit_symbol := some (str "symbol"),
        observed_property_id := some (str "pROTI"),
        observed_property_name := some (str "atmospheric ionization") }
    else parameter
  parameter

/-- Decoded raster dataset, the result of opening the GTiff payload with
`rasterio` (`MemoryFile(...).open(...)`): flattened contents of
`dataset.read()` (a `(bands, height, width)` array), the pixel dimensions
and affine bounds from `dataset.meta` / `dataset.bounds`, the number of
bands `len(dataset.dtypes)`, the driver name from `dataset.profile`, and
the per-band tag dictionaries. -/
structure Decoded where
  read : List ℚ
  width : Nat
  height : Nat
  bounds : Bounds
  dtypes_len : Nat
  driver : Str
  tags : Nat → BandTags

/-- Metadata dict handed to `gen_area_covjson`: `dataset.meta` extended by
the caller with `bbox` (from `dataset.bounds`) and `bands` (always `[0]`
in `query`). -/
structure AreaMeta where
  width : Nat
  height : Nat
  bbox : Bounds
  bands : Option (List Nat)

/-- Embedding of `PostGISRasterProvider.gen_area_covjson`.  Domain type is
`'Grid'`; the x axis runs `minx → maxx` over `width`, the y axis
`maxy → miny` (top to bottom) over `height`; the z and t axes are the
hard-coded literals of the source.  One parameter entry is made per
selected band (the dict key is `pm['id']`), and every parameter key gets
the same `NdArray` with `shape = [height, width]` and the flattened data
as `values` — the source performs no consistency check on the value count
(its `try` block only catches `IndexError`, which none of these
operations raise), so the document is returned unconditionally. -/
def gen_area_covjson (props : CoverageProps) (selfData : Decoded)
    (metadata : AreaMeta) (data : List ℚ) : CovJson :=
  let axes : List (Str × Axis) :=
    [(str "x", .regular metadata.bbox.minx metadata.bbox.maxx metadata.width),
     (str "y", .regular metadata.bbox.maxy metadata.bbox.miny metadata.height),
     (str "z", .vals [.strv (str "pROTI")]),
     (str "t", .vals [.strv (str "2021-08-19T08:25:00Z")])]
  let referencing : List Referencing :=
    [⟨[str "x", str "y"], ⟨props.crs_type, some props.bbox_crs, none⟩⟩,
     ⟨[str "t"], ⟨str "TemporalRS", none, some (str "Gregorian")⟩⟩]
  let bands_select : List Nat :=
    match metadata.bands with
    | none => List.range' 1 selfData.dtypes_len
    | some bs => bs
  let parameters : List (Option Str × Parameter) :=
    bands_select.foldl (fun acc bs =>
      let pm := get_parameter_metadata selfData.driver (selfData.tags bs)
      dict_set acc pm.id
        ⟨pm.description, pm.unit_label, pm.observed_property_id,
         pm.observed_property_name⟩) []
  let ranges : List (Option Str × NdArray) :=
    parameters.foldl (fun acc kv =>
      dict_set acc kv.1
        ⟨str "float", [str "y", str "x"], [metadata.height, metadata.width],
         data⟩) []
  ⟨⟨str "Grid", axes, referencing⟩, parameters, ranges⟩

/-- Result rows of a position query as `gen_point_covjson` consumes them:
the `_datetime` column (one timestamp per observation row, so `len(data)`
is the length of this list) and the selected parameter column after
`fillna`, flattened. -/
structure PointData where
  datetimes : List Str
  values : List ℚ

/-- Metadata argument of `gen_point_covjson`: the `parameter` entry with
its id, and the `height`/`width` entries read for the range shape. -/
structure PointMeta where
  parameter_id : Option Str
  parameter : Parameter
  height : Nat
  width : Nat

/-- Embedding of `PostGISRasterProvider.gen_point_covjson`.  Domain type
is `'Point'` when `len(data) == 1` and `'PointSeries'` otherwise.  The
names `x`, `y` and `variable` are free in the source (no binding exists at
the call site); they enter here as the explicit arguments `x`, `y` and
`dataType`. -/
def gen_point_covjson (props : CoverageProps) (x y : ℚ) (dataType : Str)
    (metadata : PointMeta) (data : PointData) : CovJson :=
  let domainType := if data.datetimes.length = 1 then str "Point" else str "PointSeries"
  let axes : List (Str × Axis) :=
    [(str "x", .vals [.num x]),
     (str "y", .vals [.num y]),
     (str "t", .vals (data.datetimes.map JVal.strv))]
  let referencing : List Referencing :=
    [⟨[str "x", str "y"], ⟨props.crs_type, some props.bbox_crs, none⟩⟩,
     ⟨[str "t"], ⟨str "TemporalRS", none, some (str "Gregorian")⟩⟩]
  ⟨⟨domainType, axes, referencing⟩,
   [(metadata.parameter_id, metadata.parameter)],
   [(metadata.parameter_id,
     ⟨dataType, [str "y", str "x", str "t"],
      [metadata.height, metadata.width, 1], data.values⟩)]⟩

/-- Provider instance fields consulted by `query`: the configured table
name, raster column, the time column, and the resolved coverage
properties. -/
structure Provider where
  table : Str
  rast : Str
  time_field : Str
  props : CoverageProps

/-- Database row as the area branch of `query` reads it: the encoded
raster payload of the `rast` column (raw bytes) and the aliased
`datetime_` column.  Position rows are only counted, never read. -/
structure Row where
  rast : List Nat
  datetime_ : Str

/-- External collaborators of `query`: the database cursor
(`_fetch_from_database`: SQL text in, rows out) and the rasterio decoder
(opening the GTiff `MemoryFile`; `none` models a decoding failure). -/
structure Env where
  fetch : Str → List Row
  decode : List Nat → Option Decoded

/-- Keyword arguments of `query` that the body reads (`resulttype` and
`coords` appear in the request vocabulary but are never consulted by the
source). -/
structure Kwargs where
  query_type : Option Str
  datetime_ : Option Str
  coords : Option Str
  wkt : Option Geom
  resulttype : Option Str

/-- Python exceptions that can escape `query`. -/
inductive PyErr
  | typeError
  | valueError
  | indexError
  | rasterioError
deriving DecidableEq

/-- Value returned by `query`: a coverage document, Python `None`, or the
literal string returned for an unsupported query type. -/
inductive Outcome
  | covjson (cj : CovJson)
  | pyNone
  | strval (s : Str)
deriving DecidableEq

/-- Text that interpolating the `wkt` keyword argument into an f-string
produces: the WKT text of the geometry, or `None` when absent. -/
def interp_wkt (wkt : Option Geom) : Str :=
  match wkt with
  | none => str "None"
  | some w => w.wktText

/-- Position-branch `where_clause` f-string of `query`, whitespace of the
backslash line continuations included. -/
def position_where_clause (p : Provider) (where_datetime : Str) : Str :=
  str "where \"useCaseId\" = 'MFMC01' " ++ sp 16
  ++ str "and " ++ where_datetime ++ str " " ++ sp 16
  ++ str "order by \"" ++ p.time_field ++ str "\" DESC"

/-- Position-branch SQL f-string of `query`, reproduced segment by segment
(one `sp` run per continuation line of the source). -/
def position_sql (p : Provider) (wkt : Option Geom) (where_datetime : Str) : Str :=
  sp 16 ++ str "SELECT "
  ++ sp 20 ++ str "pid, "
  ++ sp 20 ++ str "\"timeTag\", "
  ++ sp 20 ++ str "\"timeHorizon\", "
  ++ sp 20 ++ str "\"resultType\", "
  ++ sp 20 ++ str "\"solarWindDataSource\", "
  ++ sp 20 ++ str "\"ionosphereHeight\", "
  ++ sp 20 ++ str "\"useCaseName\", "
  ++ sp 20 ++ str "\"useCaseId\", "
  ++ sp 20 ++ str "\"threshold_ROTI\", "
  ++ sp 20 ++ str "\"threshold_PosErr\", "
  ++ sp 20 ++ str "\"Bx\", "
  ++ sp 20 ++ str "\"By\", "
  ++ sp 20 ++ str "\"Bz\", "
  ++ sp 20 ++ str "n, "
  ++ sp 20 ++ str "v, "
  ++ sp 20 ++ str "ST_Value("
  ++ sp 24 ++ p.rast ++ str ", 1, ST_SetSRID("
  ++ sp 28 ++ str "ST_GeomFromText('" ++ interp_wkt wkt ++ str "'), 4326)) "
  ++ sp 32 ++ str "as \"pROTI\""
  ++ sp 20 ++ str "from " ++ p.table ++ str " "
  ++ sp 20 ++ position_where_clause p where_datetime

/-- Area-branch `where_clause` f-string of `query`. -/
def area_where_clause (p : Provider) (where_datetime : Str) : Str :=
  str "where \"useCaseId\" = 'MFMC01' " ++ sp 16
  ++ str "and " ++ where_datetime ++ str " " ++ sp 16
  ++ str "ORDER BY \"" ++ p.time_field ++ str "\" DESC LIMIT 1"

/-- Area-branch SQL f-string of `query`. -/
def area_sql (p : Provider) (wkt : Option Geom) (where_datetime : Str) : Str :=
  sp 16 ++ str "with"
  ++ sp 20 ++ str "input_polygon as ("
  ++ sp 24 ++ str "select"
  ++ sp 28 ++ str "ST_SetSRID(ST_GeomFromText('" ++ interp_wkt wkt ++ str "'),"
  ++ sp 28 ++ str "4326) as geom)"
  ++ sp 16 ++ str "SELECT "
  ++ sp 20 ++ str "pid, "
  ++ sp 20 ++ str "\"useCaseName\", "
  ++ sp 20 ++ str "n, "
  ++ sp 20 ++ str "v, "
  ++ sp 20 ++ str "\"" ++ p.time_field ++ str "\" as datetime_, "
  ++ sp 20 ++ str "ST_AsGDALRaster("
  ++ sp 24 ++ str "ST_Clip(" ++ p.rast ++ str ", 1, geom, true), 'GTiff') as rast "
  ++ sp 20 ++ str "from " ++ p.table ++ str ", input_polygon "
  ++ sp 20 ++ area_where_clause p where_datetime

/-- Post-processing of the fetched area rows inside `query`:
`coverage = row_data[0]` (`IndexError` on zero rows), GTiff decoding of
`coverage['rast']` (`MemoryFile(...).open(...)`), `out_meta` assembly
(`bbox` from `dataset.bounds`, `bands = [0]`), and the
`gen_area_covjson` call on `dataset.read()`. -/
def area_result (p : Provider) (env : Env) (row_data : List Row) :
    Except PyErr Outcome :=
  match row_data with
  | [] => .error .indexError
  | coverage :: _ =>
    match env.decode coverage.rast with
    | none => .error .rasterioError
    | some dataset =>
      let out_meta : AreaMeta :=
        ⟨dataset.width, dataset.height, dataset.bounds, some [0]⟩
      .ok (.covjson (gen_area_covjson p.props dataset out_meta dataset.read))

/-- Embedding of `PostGISRasterProvider.query`.  Returns the outcome (or
the escaping exception) together with the list of SQL statements executed
against the database.  Control flow of the source: the initial
`try: all([...])` validation is a no-op (nothing in it raises);
`handle_datetime` runs first (`TypeError` on a missing `datetime_`,
`ValueError` when its split does not unpack); `_process_wkt_parameter`
runs next, its result never used afterwards; then the dispatch on
`query_type`.  The position branch executes its statement and falls
through the two `pass` arms of the second dispatch to `return None`.  The
area branch executes its statement, reads `row_data[0]` (`IndexError` on
zero rows), decodes the GTiff payload, sets
`out_meta['bbox'] = dataset.bounds` and `out_meta['bands'] = [0]`, and
returns `gen_area_covjson(out_meta, dataset.read())`.  Any other query
type returns the literal string `'unsupported query type!'` before any
statement is built. -/
def query (p : Provider) (env : Env) (k : Kwargs) :
    Except PyErr Outcome × List Str :=
  match k.datetime_ with
  | none => (.error .typeError, [])
  | some dt =>
    match handle_datetime dt p.time_field with
    | none => (.error .valueError, [])
    | some where_datetime =>
      let _query_params := process_wkt_parameter p.props k.wkt
      if k.query_type = some (str "position") then
        let sql := position_sql p k.wkt where_datetime
        let _row_data := env.fetch sql
        (.ok .pyNone, [sql])
      else if k.query_type = some (str "area") then
        let sql := area_sql p k.wkt where_datetime
        (area_result p env (env.fetch sql), [sql])
      else
        (.ok (.strval (str "unsupported query type!")), [])

/-- C1: the claim states that an instant yields an equality predicate,
`T1/..` yields `time_col >= T1` and `../T2` yields `time_col <= T2`.  The
source checks `'..' in start` first and returns `>=` on the *end* part,
and `<=` on the *start* part when the end is open, so the two interval
cases come out with the opposite operators: here `T1/..` yields
`"timeTag" <= 'T1'`, which differs from the `>=` predicate the claim
names. -/
theorem c1_handle_datetime_counterexample :
    handle_datetime (str "2021-08-19T08:25:00Z/..") (str "timeTag")
      = some (str "\"timeTag\" <= '2021-08-19T08:25:00Z'")
    ∧ handle_datetime (str "2021-08-19T08:25:00Z/..") (str "timeTag")
      ≠ some (str "\"timeTag\" >= '2021-08-19T08:25:00Z'") :=
  ⟨by decide, by decide⟩

/-- C1 (amended): for a valid instant `E` (no `/`), `handle_datetime`
returns the equality predicate `"col" = 'E'`; for `T1/..` it returns the
upper-bound predicate `"col" <= 'T1'`; for `../T2` it returns the
lower-bound predicate `"col" >= 'T2'` — the claim's operators for the two
open-interval forms are swapped. -/
theorem c1_handle_datetime_amended (e t1 t2 col : Str)
    (he : '/' ∉ e) (h1 : '/' ∉ t1) (h1d : ¬ (str ".." <:+: t1)) (h2 : '/' ∉ t2) :
    handle_datetime e col
      = some (str "\"" ++ col ++ str "\" = '" ++ e ++ str "'")
    ∧ handle_datetime (t1 ++ str "/..") col
      = some (str "\"" ++ col ++ str "\" <= '" ++ t1 ++ str "'")
    ∧ handle_datetime (str "../" ++ t2) col
      = some (str "\"" ++ col ++ str "\" >= '" ++ t2 ++ str "'") := by
  refine ⟨?_, ?_, ?_⟩
  · simp [handle_datetime, he]
  · have hmem : '/' ∈ t1 ++ str "/.." := by simp [str]
    have hsplit : List.splitOn '/' (t1 ++ str "/..") = [t1, str ".."] :=
      splitOn_pair t1 (str "..") h1 (by decide)
    simp only [handle_datetime, hmem, not_true_eq_false, if_false, hsplit]
    rw [if_neg h1d, if_pos (by decide)]
  · have hmem : '/' ∈ str "../" ++ t2 := by simp [str]
    have hsplit : List.splitOn '/' (str "../" ++ t2) = [str "..", t2] :=
      splitOn_pair (str "..") t2 (by decide) h2
    simp only [handle_datetime, hmem, not_true_eq_false, if_false, hsplit]
    rw [if_pos (by decide)]

/-- Witness for C1 (amended) at concrete inputs. -/
theorem c1_handle_datetime_amended_witness :
    handle_datetime (str "2021-08-19T08:25:00Z") (str "timeTag")
      = some (str "\"" ++ str "timeTag" ++ str "\" = '"
              ++ str "2021-08-19T08:25:00Z" ++ str "'")
    ∧ handle_datetime (str "2021-08-19T08:25:00Z" ++ str "/..") (str "timeTag")
      = some (str "\"" ++ str "timeTag" ++ str "\" <= '"
              ++ str "2021-08-19T08:25:00Z" ++ str "'")
    ∧ handle_datetime (str "../" ++ str "2021-08-20T08:25:00Z") (str "timeTag")
      = some (str "\"" ++ str "timeTag" ++ str "\" >= '"
              ++ str "2021-08-20T08:25:00Z" ++ str "'") :=
  c1_handle_datetime_amended (str "2021-08-19T08:25:00Z")
    (str "2021-08-19T08:25:00Z") (str "2021-08-20T08:25:00Z") (str "timeTag")
    (by decide) (by decide) (by decide) (by decide)

/-- C2: for `START/END` with both ends concrete (no `..`, and no `/`
inside either part), `handle_datetime` returns
`"col" <= 'START'' and <25 spaces> "col" >= 'END'`: the comparison
operators are exactly `<=` on `START` and then `>=` on `END`, joined by
`and`, as the claim states (the output also carries a stray doubled
apostrophe after `START` and the whitespace of the source's line
continuation, both reproduced here). -/
theorem c2_closed_range (start stop col : Str)
    (hs : '/' ∉ start) (he : '/' ∉ stop)
    (hsd : ¬ (str ".." <:+: start)) (hed : ¬ (str ".." <:+: stop)) :
    handle_datetime (start ++ str "/" ++ stop) col
      = some (str "\"" ++ col ++ str "\" <= '" ++ start ++ str "'' and "
              ++ sp 25 ++ str "\"" ++ col ++ str "\" >= '" ++ stop ++ str "'") := by
  have hmem : '/' ∈ start ++ str "/" ++ stop := by simp [str]
  have hsplit : List.splitOn '/' (start ++ str "/" ++ stop) = [start, stop] := by
    rw [List.append_assoc]
    exact splitOn_pair start stop hs he
  simp only [handle_datetime, hmem, not_true_eq_false, if_false, hsplit]
  rw [if_neg hsd, if_neg hed]

/-- Witness for C2 at concrete inputs. -/
theorem c2_closed_range_witness :
    handle_datetime (str "2021-08-19T08:25:00Z" ++ str "/"
                     ++ str "2021-08-20T08:25:00Z") (str "timeTag")
      = some (str "\"" ++ str "timeTag" ++ str "\" <= '"
              ++ str "2021-08-19T08:25:00Z" ++ str "'' and " ++ sp 25
              ++ str "\"" ++ str "timeTag" ++ str "\" >= '"
              ++ str "2021-08-20T08:25:00Z" ++ str "'") :=
  c2_closed_range (str "2021-08-19T08:25:00Z") (str "2021-08-20T08:25:00Z")
    (str "timeTag") (by decide) (by decide) (by decide) (by decide)

/-- Coverage properties fixture with the hard-coded resolver values. -/
def props0 : CoverageProps :=
  ⟨str "http://www.opengis.net/def/crs/OGC/1.3/CRS84", str "GeographicCRS",
   str "Long", str "Lat"⟩

/-- Provider fixture. -/
def P0 : Provider := ⟨str "forecast", str "rast", str "timeTag", props0⟩

/-- Point geometry fixture. -/
def G_point : Geom := ⟨str "Point", 1, 2, ([], []), ⟨1, 2, 1, 2⟩, str "POINT (1 2)"⟩

/-- Geometry fixture of a kind outside Point/LineString/Polygon. -/
def G_mp : Geom :=
  ⟨str "MultiPolygon", 0, 0, ([], []), ⟨0, 0, 1, 1⟩,
   str "MULTIPOLYGON (((0 0, 1 0, 1 1, 0 0)))"⟩

/-- Row fixture. -/
def row0 : Row := ⟨[], str "2021-08-19T08:25:00Z"⟩

/-- Environment fixture: the database returns one row, decoding fails
(never reached by the position-query fixtures below). -/
def env0 : Env := ⟨fun _ => [row0], fun _ => none⟩

/-- Position request fixture with `resulttype='hits'`. -/
def K_hits : Kwargs :=
  ⟨some (str "position"), some (str "2021-08-19T08:25:00Z"), none,
   some G_point, some (str "hits")⟩

/-- Position request fixture with an unsupported geometry kind. -/
def K_mp : Kwargs :=
  ⟨some (str "position"), some (str "2021-08-19T08:25:00Z"), none,
   some G_mp, some (str "results")⟩

/-- Position request fixture. -/
def K_point : Kwargs :=
  ⟨some (str "position"), some (str "2021-08-19T08:25:00Z"), none,
   some G_point, some (str "results")⟩

/-- Area request fixture. -/
def K_area : Kwargs :=
  ⟨some (str "area"), some (str "2021-08-19T08:25:00Z"), none,
   some G_mp, some (str "results")⟩

/-- Request fixture with a query type outside position/area. -/
def K_traj : Kwargs :=
  ⟨some (str "trajectory"), some (str "2021-08-19T08:25:00Z"), none,
   none, some (str "results")⟩

/-- C3: the claim states that `resulttype == 'hits'` returns a designated
not-implemented marker and never builds or executes SQL.  The source never
reads `resulttype`: this request with `resulttype='hits'` executes its
position statement against the database (the executed-statement list is
non-empty). -/
theorem c3_hits_executes_sql :
    K_hits.resulttype = some (str "hits") ∧ (query P0 env0 K_hits).2 ≠ [] :=
  ⟨rfl, by decide⟩

/-- C3 (amended): `query` never inspects `resulttype`; a request with
`resulttype='hits'` is processed exactly like the same request with any
other `resulttype` value (for position/area the SQL is built and
executed; no not-implemented branch exists). -/
theorem c3_resulttype_ignored (p : Provider) (env : Env) (k : Kwargs)
    (rt : Option Str) :
    query p env { k with resulttype := some (str "hits") }
      = query p env { k with resulttype := rt } := rfl

/-- C4: for every area query (valid datetime), the single statement
`query` executes is `area_sql`; that statement contains the temporal
predicate produced by `handle_datetime`, and it ends with
`ORDER BY "<time_field>" DESC LIMIT 1` — ordered by the time column
descending and limited to one row. -/
theorem c4_area_sql_shape (p : Provider) (env : Env) (k : Kwargs)
    (dt pred : Str)
    (hq : k.query_type = some (str "area"))
    (hdt : k.datetime_ = some dt)
    (hp : handle_datetime dt p.time_field = some pred) :
    (query p env k).2 = [area_sql p k.wkt pred]
    ∧ (∃ u v, area_sql p k.wkt pred = u ++ pred ++ v)
    ∧ (∃ u, area_sql p k.wkt pred
        = u ++ (str "ORDER BY \"" ++ p.time_field ++ str "\" DESC LIMIT 1")) := by
  refine ⟨?_, ?_, ?_⟩
  · simp only [query, hdt, hp, hq]
    rw [if_neg (show ¬(some (str "area") = some (str "position")) by decide),
        if_pos trivial]
  · refine ⟨sp 16 ++ str "with"
      ++ sp 20 ++ str "input_polygon as ("
      ++ sp 24 ++ str "select"
      ++ sp 28 ++ str "ST_SetSRID(ST_GeomFromText('" ++ interp_wkt k.wkt ++ str "'),"
      ++ sp 28 ++ str "4326) as geom)"
      ++ sp 16 ++ str "SELECT "
      ++ sp 20 ++ str "pid, "
      ++ sp 20 ++ str "\"useCaseName\", "
      ++ sp 20 ++ str "n, "
      ++ sp 20 ++ str "v, "
      ++ sp 20 ++ str "\"" ++ p.time_field ++ str "\" as datetime_, "
      ++ sp 20 ++ str "ST_AsGDALRaster("
      ++ sp 24 ++ str "ST_Clip(" ++ p.rast ++ str ", 1, geom, true), 'GTiff') as rast "
      ++ sp 20 ++ str "from " ++ p.table ++ str ", input_polygon "
      ++ sp 20 ++ str "where \"useCaseId\" = 'MFMC01' " ++ sp 16 ++ str "and ",
      str " " ++ sp 16 ++ str "ORDER BY \"" ++ p.time_field ++ str "\" DESC LIMIT 1", ?_⟩
    simp [area_sql, area_where_clause, List.append_assoc]
  · refine ⟨sp 16 ++ str "with"
      ++ sp 20 ++ str "input_polygon as ("
      ++ sp 24 ++ str "select"
      ++ sp 28 ++ str "ST_SetSRID(ST_GeomFromText('" ++ interp_wkt k.wkt ++ str "'),"
      ++ sp 28 ++ str "4326) as geom)"
      ++ sp 16 ++ str "SELECT "
      ++ sp 20 ++ str "pid, "
      ++ sp 20 ++ str "\"useCaseName\", "
      ++ sp 20 ++ str "n, "
      ++ sp 20 ++ str "v, "
      ++ sp 20 ++ str "\"" ++ p.time_field ++ str "\" as datetime_, "
      ++ sp 20 ++ str "ST_AsGDALRaster("
      ++ sp 24 ++ str "ST_Clip(" ++ p.rast ++ str ", 1, geom, true), 'GTiff') as rast "
      ++ sp 20 ++ str "from " ++ p.table ++ str ", input_polygon "
      ++ sp 20 ++ str "where \"useCaseId\" = 'MFMC01' " ++ sp 16
      ++ str "and " ++ pred ++ str " " ++ sp 16, ?_⟩
    simp [area_sql, area_where_clause, List.append_assoc]

/-- Witness for C4 at concrete inputs. -/
theorem c4_area_sql_shape_witness :
    (query P0 env0 K_area).2
      = [area_sql P0 K_area.wkt (str "\"timeTag\" = '2021-08-19T08:25:00Z'")]
    ∧ (∃ u v, area_sql P0 K_area.wkt (str "\"timeTag\" = '2021-08-19T08:25:00Z'")
        = u ++ str "\"timeTag\" = '2021-08-19T08:25:00Z'" ++ v)
    ∧ (∃ u, area_sql P0 K_area.wkt (str "\"timeTag\" = '2021-08-19T08:25:00Z'")
        = u ++ (str "ORDER BY \"" ++ P0.time_field ++ str "\" DESC LIMIT 1")) :=
  c4_area_sql_shape P0 env0 K_area (str "2021-08-19T08:25:00Z")
    (str "\"timeTag\" = '2021-08-19T08:25:00Z'") rfl rfl (by decide)

/-- C5: the claim states that a WKT geometry whose kind is not Point,
LineString or Polygon fails with an `UnsupportedGeometryKind` error and
no database query is performed.  The source has no such error path: a
MultiPolygon falls through every branch of `_process_wkt_parameter`,
which silently returns the empty binding dict, and the surrounding
position query still executes its SQL statement and returns `None`
without raising. -/
theorem c5_multipolygon_counterexample :
    process_wkt_parameter P0.props (some G_mp) = []
    ∧ (query P0 env0 K_mp).2 ≠ []
    ∧ (query P0 env0 K_mp).1 = .ok .pyNone :=
  ⟨rfl, by decide, rfl⟩

/-- C5 (amended): for every geometry whose kind is not Point, LineString
or Polygon, `_process_wkt_parameter` silently returns the empty binding
dict; it raises nothing, and `query` goes on to execute its statement. -/
theorem c5_unsupported_geometry_silent (props : CoverageProps) (g : Geom)
    (h1 : g.type ≠ str "Point") (h2 : g.type ≠ str "LineString")
    (h3 : g.type ≠ str "Polygon") :
    process_wkt_parameter props (some g) = [] := by
  simp [process_wkt_parameter, h1, h2, h3]

/-- Witness for C5 (amended) at a concrete geometry. -/
theorem c5_unsupported_geometry_silent_witness :
    process_wkt_parameter props0 (some G_mp) = [] :=
  c5_unsupported_geometry_silent props0 G_mp (by decide) (by decide) (by decide)

/-- C6: for every request whose query type is neither `position` nor
`area` (and whose datetime expression parses), `query` returns the
literal unsupported-query-type marker and executes no SQL statement. -/
theorem c6_unsupported_query_type (p : Provider) (env : Env) (k : Kwargs)
    (dt pred : Str)
    (hdt : k.datetime_ = some dt)
    (hp : handle_datetime dt p.time_field = some pred)
    (h1 : k.query_type ≠ some (str "position"))
    (h2 : k.query_type ≠ some (str "area")) :
    query p env k = (.ok (.strval (str "unsupported query type!")), []) := by
  simp only [query, hdt, hp]
  rw [if_neg h1, if_neg h2]

/-- Witness for C6 at a concrete trajectory request. -/
theorem c6_unsupported_query_type_witness :
    query P0 env0 K_traj = (.ok (.strval (str "unsupported query type!")), []) :=
  c6_unsupported_query_type P0 env0 K_traj (str "2021-08-19T08:25:00Z")
    (str "\"timeTag\" = '2021-08-19T08:25:00Z'") rfl (by decide)
    (by decide) (by decide)

/-- C7: every area coverage assembled by `gen_area_covjson` from a decoded
raster (with the metadata `query` derives from it) has domain type `Grid`,
x axis `start = minx`, `stop = maxx`, `num = width`, and y axis
`start = maxy`, `stop = miny`, `num = height` — the y axis runs top to
bottom. -/
theorem c7_grid_axes (props : CoverageProps) (d : Decoded) (data : List ℚ) :
    (gen_area_covjson props d ⟨d.width, d.height, d.bounds, some [0]⟩
        data).domain.domainType = str "Grid"
    ∧ (gen_area_covjson props d ⟨d.width, d.height, d.bounds, some [0]⟩
        data).domain.axes.lookup (str "x")
      = some (.regular d.bounds.minx d.bounds.maxx d.width)
    ∧ (gen_area_covjson props d ⟨d.width, d.height, d.bounds, some [0]⟩
        data).domain.axes.lookup (str "y")
      = some (.regular d.bounds.maxy d.bounds.miny d.height) :=
  ⟨rfl, rfl, rfl⟩

/-- Band tag fixture: a GTiff dataset exposes no GRIB tags. -/
def tags_empty : BandTags := ⟨fun _ => none⟩

/-- Decoded-raster fixture with two bands: `dataset.read()` flattens to
`2 * 1 * 2 = 4` values over a 2x1 pixel grid. -/
def D_twoband : Decoded :=
  ⟨[1, 2, 3, 4], 2, 1, ⟨0, 0, 2, 1⟩, 2, str "GTiff", fun _ => tags_empty⟩

/-- Area metadata fixture as `query` would build it for `D_twoband`. -/
def M_twoband : AreaMeta := ⟨2, 1, ⟨0, 0, 2, 1⟩, some [0]⟩

/-- C8: the claim (and spec invariant) requires the flattened `values`
list of each range to have length equal to the product of the sizes in
`shape`, any mismatch failing with `CoverageShapeMismatch`.  The source
performs no such check (the comment `TODO: deal with multi-band value
output` marks the gap, and the surrounding `try` only catches an
`IndexError` that never occurs): for a decoded two-band raster it emits
`shape = [height, width] = [1, 2]` with all `4` flattened values, an
inconsistent document returned without any error. -/
theorem c8_shape_mismatch_emitted :
    (gen_area_covjson props0 D_twoband M_twoband D_twoband.read).ranges.lookup
        (some (str "pROTI"))
      = some ⟨str "float", [str "y", str "x"],
              [D_twoband.height, D_twoband.width], D_twoband.read⟩
    ∧ D_twoband.read.length ≠ D_twoband.height * D_twoband.width :=
  ⟨rfl, by decide⟩

/-- C9: the coverage document built by `gen_point_covjson` has domain type
`Point` when exactly one observation row is present and `PointSeries` when
more than one is. -/
theorem c9_point_domain_type (props : CoverageProps) (x y : ℚ) (dataType : Str)
    (md : PointMeta) (data : PointData) :
    (data.datetimes.length = 1 →
      (gen_point_covjson props x y dataType md data).domain.domainType
        = str "Point")
    ∧ (1 < data.datetimes.length →
      (gen_point_covjson props x y dataType md data).domain.domainType
        = str "PointSeries") := by
  constructor
  · intro h
    simp [gen_point_covjson, h]
  · intro h
    have hne : data.datetimes.length ≠ 1 := by omega
    simp [gen_point_covjson, hne]

/-- Point metadata fixture. -/
def pm0 : PointMeta := ⟨some (str "pROTI"), ⟨none, none, none, none⟩, 1, 1⟩

/-- One-row point data fixture. -/
def pd1 : PointData := ⟨[str "2021-08-19T08:25:00Z"], [1]⟩

/-- Two-row point data fixture. -/
def pd2 : PointData :=
  ⟨[str "2021-08-19T08:25:00Z", str "2021-08-19T08:30:00Z"], [1, 2]⟩

/-- Witness for C9 at one-row and two-row inputs. -/
theorem c9_point_domain_type_witness :
    (gen_point_covjson props0 1 2 (str "float64") pm0 pd1).domain.domainType
      = str "Point"
    ∧ (gen_point_covjson props0 1 2 (str "float64") pm0 pd2).domain.domainType
      = str "PointSeries" :=
  ⟨(c9_point_domain_type props0 1 2 (str "float64") pm0 pd1).1 (by decide),
   (c9_point_domain_type props0 1 2 (str "float64") pm0 pd2).2 (by decide)⟩

/-- C10: for every position query (valid datetime), `query` executes its
statement and returns Python `None`, whatever rows the database hands
back — the environment `env`, and with it the number of result rows, is
arbitrary, and the result does not depend on it. -/
theorem c10_position_returns_none (p : Provider) (env : Env) (k : Kwargs)
    (dt pred : Str)
    (hq : k.query_type = some (str "position"))
    (hdt : k.datetime_ = some dt)
    (hp : handle_datetime dt p.time_field = some pred) :
    query p env k = (.ok .pyNone, [position_sql p k.wkt pred]) := by
  simp [query, hdt, hp, hq]

/-- Witness for C10 at a concrete position request. -/
theorem c10_position_returns_none_witness :
    query P0 env0 K_point
      = (.ok .pyNone,
         [position_sql P0 K_point.wkt (str "\"timeTag\" = '2021-08-19T08:25:00Z'")]) :=
  c10_position_returns_none P0 env0 K_point (str "2021-08-19T08:25:00Z")
    (str "\"timeTag\" = '2021-08-19T08:25:00Z'") rfl rfl (by decide)

end PostgisEdr
